import Mathlib

/-!
Shallow embedding of the token-rotation service of the YZK-image web app
(`tokenRotation` / `crypto` modules). The service keeps, per provider, a set
of API tokens flagged "exhausted" in a localStorage-backed store that is
lazily reset each UTC day, selects the first available token from a
caller-supplied list, classifies quota/rate-limit errors, and wraps an
operation with retry-on-quota rotation.

Modelling conventions:
- `localStorage` for the status key is a `StorageCell`: absent, malformed
  (JSON that fails to parse), or a stored `TokenStatusStore` record.
- The current UTC date string (`getUTCDateString()`) is passed as an explicit
  `today : String` parameter.
- JS `Record<string, _>` objects are association lists with unique keys;
  property read, property write and `delete` are `lookupEntry`, `setEntry`
  and `deleteEntry`.
- Every operation is state-passing: it returns its value paired with the
  storage cell after the call, so that (non-)writes are visible.
-/

/-- The four token providers (`TokenProvider` = `ProviderType` plus deepseek). -/
inductive TokenProvider where
  | gitee
  | huggingface
  | modelscope
  | deepseek
deriving DecidableEq, Repr

/-- The string a provider value denotes at runtime; it is the key used to
index `store.exhausted`. -/
def providerKey : TokenProvider → String
  | .gitee => "gitee"
  | .huggingface => "huggingface"
  | .modelscope => "modelscope"
  | .deepseek => "deepseek"

/-- `TokenStatusStore`: UTC date string plus map of provider key to map of
token to exhausted flag. -/
structure TokenStatusStore where
  date : String
  exhausted : List (String × List (String × Bool))
deriving DecidableEq, Repr

/-- The state of the `zenith-token-status` localStorage slot. -/
inductive StorageCell where
  | absent
  | malformed
  | stored (s : TokenStatusStore)
deriving DecidableEq, Repr

/-- JS object property read (`m[k]`), on the association-list model. -/
def lookupEntry {α : Type} : List (String × α) → String → Option α
  | [], _ => none
  | (k, v) :: rest, key => if k == key then some v else lookupEntry rest key

/-- JS object property write (`m[k] = v`); keys of a JS object are unique. -/
def setEntry {α : Type} : List (String × α) → String → α → List (String × α)
  | [], key, v => [(key, v)]
  | (k, w) :: rest, key, v =>
    if k == key then (k, v) :: rest else (k, w) :: setEntry rest key v

/-- JS `delete m[k]`; since JS object keys are unique, removing every entry
with the key is the same as removing the one entry. -/
def deleteEntry {α : Type} (m : List (String × α)) (key : String) : List (String × α) :=
  m.filter (fun e => !(e.1 == key))

/-- Truthiness of `exhaustedMap[token]` (absent is falsy). -/
def tokenFlag (m : List (String × Bool)) (token : String) : Bool :=
  (lookupEntry m token).getD false

/-- `getTokenStatusStore()`: parse the stored record; on absence or parse
failure return a fresh store dated today; if the stored date differs from
today return a fresh empty store dated today (lazy daily reset, no write). -/
def getTokenStatusStore (today : String) (cell : StorageCell) : TokenStatusStore :=
  match cell with
  | .stored s => if s.date ≠ today then { date := today, exhausted := [] } else s
  | _ => { date := today, exhausted := [] }

/-- `saveTokenStatusStore(store)`: overwrite the localStorage slot. -/
def saveTokenStatusStore (store : TokenStatusStore) : StorageCell :=
  .stored store

/-- `String.prototype.split(',')` on the character list: split at every
comma, keeping empty fragments. -/
def splitCommaList : List Char → List (List Char)
  | [] => [[]]
  | a :: rest =>
    if a == ',' then [] :: splitCommaList rest
    else
      match splitCommaList rest with
      | [] => [[a]]
      | g :: gs => (a :: g) :: gs

/-- `String.prototype.split(',')`. -/
def jsSplitComma (s : String) : List String :=
  (splitCommaList s.data).map String.mk

/-- `String.prototype.trim()`: drop whitespace from both ends (the inputs
here only carry ASCII whitespace). -/
def jsTrim (s : String) : String :=
  String.mk (((s.data.dropWhile Char.isWhitespace).reverse.dropWhile
    Char.isWhitespace).reverse)

/-- `parseTokens(rawInput)`: split on the ASCII comma, trim each fragment,
drop empty fragments; `null`/`undefined`/empty input gives `[]`. -/
def parseTokens (rawInput : Option String) : List String :=
  match rawInput with
  | none => []
  | some s =>
    if s == "" then []
    else ((jsSplitComma s).map jsTrim).filter (fun t => t.length > 0)

/-- `isTokenExhausted(provider, token)`: `store.exhausted[provider]?.[token] === true`.
Read-only: the cell is returned unchanged. -/
def isTokenExhausted (today : String) (cell : StorageCell)
    (provider : TokenProvider) (token : String) : Bool × StorageCell :=
  let store := getTokenStatusStore today cell
  (((lookupEntry store.exhausted (providerKey provider)).bind
      (fun m => lookupEntry m token)) == some true, cell)

/-- `markTokenExhausted(provider, token)`: ensure the provider submap exists,
set the token flag to true, save the store. -/
def markTokenExhausted (today : String) (cell : StorageCell)
    (provider : TokenProvider) (token : String) : StorageCell :=
  let store := getTokenStatusStore today cell
  let provMap := (lookupEntry store.exhausted (providerKey provider)).getD []
  saveTokenStatusStore
    { date := store.date
      exhausted := setEntry store.exhausted (providerKey provider)
        (setEntry provMap token true) }

/-- `x || null` applied to the result of `Array.prototype.find`: `undefined`
and the empty string (both falsy) collapse to `null`. -/
def jsOrNull : Option String → Option String
  | some t => if t == "" then none else some t
  | none => none

/-- `getNextAvailableToken(provider, allTokens)`: first token of the list
whose flag is falsy, with `find(...) || null` coalescing. Read-only. -/
def getNextAvailableToken (today : String) (cell : StorageCell)
    (provider : TokenProvider) (allTokens : List String) :
    Option String × StorageCell :=
  if allTokens.length == 0 then (none, cell)
  else
    let store := getTokenStatusStore today cell
    let exhaustedMap := (lookupEntry store.exhausted (providerKey provider)).getD []
    (jsOrNull (allTokens.find? (fun token => !(tokenFlag exhaustedMap token))), cell)

/-- Result of `getTokenStats`. -/
structure TokenStats where
  total : Nat
  active : Nat
  exhausted : Nat
deriving DecidableEq, Repr

/-- `getTokenStats(provider, allTokens)`: counts over the current store.
Read-only. -/
def getTokenStats (today : String) (cell : StorageCell)
    (provider : TokenProvider) (allTokens : List String) :
    TokenStats × StorageCell :=
  let store := getTokenStatusStore today cell
  let exhaustedMap := (lookupEntry store.exhausted (providerKey provider)).getD []
  let exhaustedCount := (allTokens.filter (fun t => tokenFlag exhaustedMap t)).length
  ({ total := allTokens.length
     active := allTokens.length - exhaustedCount
     exhausted := exhaustedCount }, cell)

/-- `resetProviderTokens(provider)`: `delete store.exhausted[provider]`, save. -/
def resetProviderTokens (today : String) (cell : StorageCell)
    (provider : TokenProvider) : StorageCell :=
  let store := getTokenStatusStore today cell
  saveTokenStatusStore
    { date := store.date
      exhausted := deleteEntry store.exhausted (providerKey provider) }

/-- `resetAllTokens()`: save a fresh empty store dated today. -/
def resetAllTokens (today : String) : StorageCell :=
  saveTokenStatusStore { date := today, exhausted := [] }

/-- Error values that can reach `isQuotaError`, as a sum of the JS shapes the
code probes: `null`, `undefined`, a `Response` with a status, a plain object
with optional `status`/`code`/`message`/`error` fields, a native `Error`. -/
inductive JSError where
  | nullv
  | undef
  | response (status : Int)
  | obj (status : Option Int) (code : Option String) (message : Option String)
        (error : Option String)
  | err (message : String)
deriving DecidableEq, Repr

/-- Does the character list start with the pattern? -/
def startsWithList : List Char → List Char → Bool
  | _, [] => true
  | [], _ :: _ => false
  | a :: as, b :: bs => a == b && startsWithList as bs

/-- Does the character list contain the pattern as a contiguous run?
(`String.prototype.includes` on character lists.) -/
def containsList : List Char → List Char → Bool
  | [], pat => pat.isEmpty
  | a :: rest, pat => startsWithList (a :: rest) pat || containsList rest pat

/-- `String.prototype.includes`. -/
def jsIncludes (s pat : String) : Bool :=
  containsList s.data pat.data

/-- `String.prototype.toLowerCase()` (ASCII case folding; the classifier's
inputs are ASCII). -/
def jsToLower (s : String) : String :=
  String.mk (s.data.map Char.toLower)

/-- Case-folded quota-substring test shared by the message checks:
`msg.includes('429') || msg.includes('rate limit') || msg.includes('quota')
|| msg.includes('too many requests')` after `toLowerCase()`. -/
def quotaMsg (m : String) : Bool :=
  let msg := jsToLower m
  jsIncludes msg "429" || jsIncludes msg "rate limit" ||
    jsIncludes msg "quota" || jsIncludes msg "too many requests"

/-- `isQuotaError(error)`: falsy input is false; a `Response` matches on
status 429; an object matches on `status === 429`, a rate-limit/quota `code`,
or a quota substring in `message` or in a truthy string `error` field; a
native `Error` (an object whose only relevant field is `message`) matches on
the same substrings. -/
def isQuotaError : JSError → Bool
  | .nullv => false
  | .undef => false
  | .response status => status == 429
  | .obj status code message error =>
    (status == some 429) ||
    (code == some "RATE_LIMITED" || code == some "QUOTA_EXCEEDED") ||
    (match message with
      | some m => quotaMsg m
      | none => false) ||
    (match error with
      | some e => !(e == "") && quotaMsg e
      | none => false)
  | .err m => quotaMsg m

/-- `MAX_RETRY_ATTEMPTS`. -/
def MAX_RETRY_ATTEMPTS : Nat := 10

/-- Outcome of one invocation of the wrapped async operation: resolve or
throw. -/
inductive OpResult (T : Type) where
  | ok (value : T)
  | thrown (e : JSError)

/-- `TokenRotationResponse<T>`: the success record (`data`, `tokenUsed`) or
the error record (`error`, `isAllExhausted`). -/
inductive RotationResponse (T : Type) where
  | success (data : T) (tokenUsed : Option String)
  | failure (error : String) (isAllExhausted : Bool)

/-- `error instanceof Error ? error.message : 'Unknown error'`. -/
def errMessage : JSError → String
  | .err m => m
  | _ => "Unknown error"

/-- The `while (attempts < MAX_RETRY_ATTEMPTS)` loop of
`runWithTokenRotation`: `fuel` is the remaining attempt budget (consumed
only on the quota-error `continue` path, matching `attempts++`), `cell` the
storage state, `calls` the number of operation invocations made so far. The
operation is modelled as a function of the invocation index so it may behave
differently across calls. Returns the response, the final storage state and
the total number of invocations. -/
def rotationLoop {T : Type} (today : String) (provider : TokenProvider)
    (allTokens : List String) (op : Nat → Option String → OpResult T)
    (allowAnonymous : Bool) :
    Nat → StorageCell → Nat → RotationResponse T × StorageCell × Nat
  | 0, cell, calls => (.failure "Maximum retry attempts reached" true, cell, calls)
  | fuel + 1, cell, calls =>
    match (getNextAvailableToken today cell provider allTokens).1 with
    | none =>
      if allowAnonymous then
        match op calls none with
        | .ok r => (.success r none, cell, calls + 1)
        | .thrown e => (.failure (errMessage e) true, cell, calls + 1)
      else
        (.failure "All API tokens exhausted. Quota will reset tomorrow." true,
          cell, calls)
    | some token =>
      match op calls (some token) with
      | .ok r => (.success r (some token), cell, calls + 1)
      | .thrown e =>
        if isQuotaError e then
          rotationLoop today provider allTokens op allowAnonymous fuel
            (markTokenExhausted today cell provider token) (calls + 1)
        else
          (.failure (errMessage e) false, cell, calls + 1)

/-- `runWithTokenRotation(provider, allTokens, operation, options)`. -/
def runWithTokenRotation {T : Type} (today : String) (cell : StorageCell)
    (provider : TokenProvider) (allTokens : List String)
    (op : Nat → Option String → OpResult T) (allowAnonymous : Bool) :
    RotationResponse T × StorageCell × Nat :=
  if allTokens.length == 0 then
    if allowAnonymous then
      match op 0 none with
      | .ok r => (.success r none, cell, 1)
      | .thrown e => (.failure (errMessage e) false, cell, 1)
    else
      (.failure "No API tokens configured" false, cell, 0)
  else
    rotationLoop today provider allTokens op allowAnonymous
      MAX_RETRY_ATTEMPTS cell 0

/-- The date field of the persisted record, when one is stored. -/
def storedDate : StorageCell → Option String
  | .stored s => some s.date
  | _ => none

/-! ## Helper lemmas about the association-list record model -/

theorem lookupEntry_setEntry_self {α : Type} (l : List (String × α)) (k : String) (v : α) :
    lookupEntry (setEntry l k v) k = some v := by
  induction l with
  | nil => simp [setEntry, lookupEntry]
  | cons e rest ih =>
    obtain ⟨k₀, w⟩ := e
    by_cases h : k₀ = k
    · subst h
      simp [setEntry, lookupEntry]
    · simp [setEntry, lookupEntry, h, ih]

theorem lookupEntry_setEntry_ne {α : Type} (l : List (String × α)) (k k' : String) (v : α)
    (h : k ≠ k') : lookupEntry (setEntry l k v) k' = lookupEntry l k' := by
  induction l with
  | nil => simp [setEntry, lookupEntry, h]
  | cons e rest ih =>
    obtain ⟨k₀, w⟩ := e
    by_cases h₀ : k₀ = k
    · subst h₀
      simp [setEntry, lookupEntry, h]
    · simp [setEntry, lookupEntry, h₀, ih]

theorem lookupEntry_deleteEntry_self {α : Type} (l : List (String × α)) (k : String) :
    lookupEntry (deleteEntry l k) k = none := by
  induction l with
  | nil => simp [deleteEntry, lookupEntry]
  | cons e rest ih =>
    obtain ⟨k₀, w⟩ := e
    by_cases h : k₀ = k
    · subst h
      simpa [deleteEntry, lookupEntry] using ih
    · simpa [deleteEntry, lookupEntry, h] using ih

theorem lookupEntry_deleteEntry_ne {α : Type} (l : List (String × α)) (k k' : String)
    (h : k ≠ k') : lookupEntry (deleteEntry l k) k' = lookupEntry l k' := by
  induction l with
  | nil => simp [deleteEntry, lookupEntry]
  | cons e rest ih =>
    obtain ⟨k₀, w⟩ := e
    by_cases h₀ : k₀ = k
    · subst h₀
      simpa [deleteEntry, lookupEntry, h] using ih
    · simp only [deleteEntry] at ih
      simp [deleteEntry, lookupEntry, h₀, ih]

theorem getTokenStatusStore_date (today : String) (cell : StorageCell) :
    (getTokenStatusStore today cell).date = today := by
  cases cell with
  | stored s =>
    by_cases h : s.date = today
    · simp [getTokenStatusStore, h]
    · simp [getTokenStatusStore, h]
  | absent => rfl
  | malformed => rfl

theorem optBool_getD_eq (o : Option Bool) : o.getD false = (o == some true) := by
  cases o with
  | none => rfl
  | some b => cases b <;> rfl

theorem tokenFlag_eq_isTokenExhausted (today : String) (cell : StorageCell)
    (provider : TokenProvider) (token : String) :
    tokenFlag ((lookupEntry (getTokenStatusStore today cell).exhausted
        (providerKey provider)).getD []) token
      = (isTokenExhausted today cell provider token).1 := by
  unfold isTokenExhausted tokenFlag
  cases h : lookupEntry (getTokenStatusStore today cell).exhausted (providerKey provider) with
  | none => simp [h, lookupEntry]
  | some m => simp [h, optBool_getD_eq]

theorem providerKey_injective {P Q : TokenProvider} (h : P ≠ Q) :
    providerKey P ≠ providerKey Q := by
  cases P <;> cases Q <;> first
    | exact absurd rfl h
    | decide

theorem getTokenStatusStore_save (today : String) (s : TokenStatusStore)
    (hs : s.date = today) :
    getTokenStatusStore today (saveTokenStatusStore s) = s := by
  simp [getTokenStatusStore, saveTokenStatusStore, hs]

theorem store_after_mark (today : String) (cell : StorageCell)
    (provider : TokenProvider) (token : String) :
    getTokenStatusStore today (markTokenExhausted today cell provider token)
      = { date := (getTokenStatusStore today cell).date
          exhausted := setEntry (getTokenStatusStore today cell).exhausted
            (providerKey provider)
            (setEntry ((lookupEntry (getTokenStatusStore today cell).exhausted
              (providerKey provider)).getD []) token true) } := by
  apply getTokenStatusStore_save
  simp [getTokenStatusStore_date]

theorem store_after_resetProvider (today : String) (cell : StorageCell)
    (provider : TokenProvider) :
    getTokenStatusStore today (resetProviderTokens today cell provider)
      = { date := (getTokenStatusStore today cell).date
          exhausted := deleteEntry (getTokenStatusStore today cell).exhausted
            (providerKey provider) } := by
  apply getTokenStatusStore_save
  simp [getTokenStatusStore_date]

theorem getNextAvailableToken_cons (today : String) (cell : StorageCell)
    (provider : TokenProvider) (t : String) (ts : List String) :
    (getNextAvailableToken today cell provider (t :: ts)).1
      = jsOrNull ((t :: ts).find?
          (fun tok => !(isTokenExhausted today cell provider tok).1)) := by
  have hbridge : (fun tok => !(tokenFlag ((lookupEntry
      (getTokenStatusStore today cell).exhausted
      (providerKey provider)).getD []) tok))
      = fun tok => !(isTokenExhausted today cell provider tok).1 :=
    funext fun tok => by rw [tokenFlag_eq_isTokenExhausted]
  unfold getNextAvailableToken
  simp only [List.length_cons]
  rw [if_neg (by simp)]
  rw [hbridge]

/-! ## Claim theorems -/

/-- Claim C1 counterexample: for the list `[""]` with no exhausted flags, the
first token not flagged exhausted is the empty string, yet
`getNextAvailableToken` returns none instead of that token — the claim as
stated fails on empty-string tokens. -/
theorem getNextAvailableToken_first_counterexample :
    List.find? (fun tok => !(isTokenExhausted "2026-10-12" .absent .gitee tok).1) [""]
        = some ""
    ∧ (getNextAvailableToken "2026-10-12" .absent .gitee [""]).1 = none := by decide

/-- Claim C1 (amended): for every provider and every caller-supplied ordered
token list whose members are non-empty strings, `getNextAvailableToken`
returns the first token in list order not flagged exhausted for that
provider (none if the list is empty or every member is flagged), and on such
lists with no exhausted entries it returns the first element. -/
theorem getNextAvailableToken_first_available (today : String) (cell : StorageCell)
    (provider : TokenProvider) (tokens : List String)
    (hne : ∀ tok ∈ tokens, tok ≠ "") :
    (getNextAvailableToken today cell provider tokens).1
        = tokens.find? (fun tok => !(isTokenExhausted today cell provider tok).1)
    ∧ ((∀ tok ∈ tokens, (isTokenExhausted today cell provider tok).1 = false) →
        (getNextAvailableToken today cell provider tokens).1 = tokens.head?) := by
  cases tokens with
  | nil => exact ⟨rfl, fun _ => rfl⟩
  | cons t ts =>
    have hmain : (getNextAvailableToken today cell provider (t :: ts)).1
        = (t :: ts).find? (fun tok => !(isTokenExhausted today cell provider tok).1) := by
      rw [getNextAvailableToken_cons]
      cases hf : (t :: ts).find? (fun tok => !(isTokenExhausted today cell provider tok).1) with
      | none => rfl
      | some tok =>
        have hmem := List.mem_of_find?_eq_some hf
        have htok := hne tok hmem
        simp [jsOrNull, htok]
    refine ⟨hmain, fun hall => ?_⟩
    rw [hmain, List.find?_cons_of_pos _ (by simp [hall t (by simp)])]
    rfl

/-- Claim C1 witness at provider gitee, fresh store, list `["t1", "t2"]`. -/
theorem getNextAvailableToken_first_available_witness :
    (getNextAvailableToken "2026-10-12" .absent .gitee ["t1", "t2"]).1
        = List.find? (fun tok => !(isTokenExhausted "2026-10-12" .absent .gitee tok).1)
            ["t1", "t2"]
    ∧ (getNextAvailableToken "2026-10-12" .absent .gitee ["t1", "t2"]).1
        = (["t1", "t2"] : List String).head? := by
  have h := getNextAvailableToken_first_available "2026-10-12" .absent .gitee
    ["t1", "t2"] (by decide)
  exact ⟨h.1, h.2 (by decide)⟩

/-- Claim C9: whenever the first token of the list not flagged exhausted is
the empty string, `getNextAvailableToken` returns none (the `|| null`
coalescing collapses the empty-string token), even if later members are
available. -/
theorem getNextAvailableToken_empty_collapses (today : String) (cell : StorageCell)
    (provider : TokenProvider) (tokens : List String)
    (h : tokens.find? (fun tok => !(isTokenExhausted today cell provider tok).1)
        = some "") :
    (getNextAvailableToken today cell provider tokens).1 = none := by
  cases tokens with
  | nil => simp at h
  | cons t ts =>
    rw [getNextAvailableToken_cons, h]
    rfl

/-- Claim C9 witness: list `["", "t2"]` on a fresh store — `"t2"` is
available, yet the result is none. -/
theorem getNextAvailableToken_empty_collapses_witness :
    (getNextAvailableToken "2026-10-12" .absent .gitee ["", "t2"]).1 = none :=
  getNextAvailableToken_empty_collapses "2026-10-12" .absent .gitee ["", "t2"]
    (by decide)

/-- Claim C2: `isQuotaError` returns true on each of the seven quota-shaped
errors and false on each of the six non-quota inputs. -/
theorem isQuotaError_cases :
    isQuotaError (.obj (some 429) none none none) = true ∧
    isQuotaError (.obj none (some "RATE_LIMITED") none none) = true ∧
    isQuotaError (.obj none (some "QUOTA_EXCEEDED") none none) = true ∧
    isQuotaError (.obj none none (some "Rate limit exceeded") none) = true ∧
    isQuotaError (.obj none none (some "Too many requests") none) = true ∧
    isQuotaError (.obj none none none (some "429 Too Many Requests")) = true ∧
    isQuotaError (.err "429") = true ∧
    isQuotaError (.obj (some 401) none none none) = false ∧
    isQuotaError (.obj (some 500) none none none) = false ∧
    isQuotaError (.obj none (some "AUTH_INVALID") none none) = false ∧
    isQuotaError (.obj none none (some "Invalid API key") none) = false ∧
    isQuotaError .nullv = false ∧
    isQuotaError .undef = false := by decide

/-- Claim C6: for every provider, token list and store state,
`getTokenStats` satisfies `active + exhausted = total` and
`total = list.length`. -/
theorem getTokenStats_adds_up (today : String) (cell : StorageCell)
    (provider : TokenProvider) (allTokens : List String) :
    (getTokenStats today cell provider allTokens).1.active
        + (getTokenStats today cell provider allTokens).1.exhausted
      = (getTokenStats today cell provider allTokens).1.total
    ∧ (getTokenStats today cell provider allTokens).1.total = allTokens.length := by
  refine ⟨?_, rfl⟩
  simp only [getTokenStats]
  exact Nat.sub_add_cancel (List.length_filter_le _ _)

/-- Claim C7: the read-side operations `isTokenExhausted`,
`getNextAvailableToken` and `getTokenStats` leave the persisted record
unchanged in every store state, stale-dated states included. -/
theorem readers_do_not_write (today : String) (cell : StorageCell)
    (provider : TokenProvider) (token : String) (tokens : List String) :
    (isTokenExhausted today cell provider token).2 = cell
    ∧ (getNextAvailableToken today cell provider tokens).2 = cell
    ∧ (getTokenStats today cell provider tokens).2 = cell := by
  refine ⟨rfl, ?_, rfl⟩
  unfold getNextAvailableToken
  split <;> rfl

/-- Claim C8: `parseTokens` splits only on the ASCII comma, trims fragments,
drops empty fragments, maps null input to the empty list, and does not split
on the full-width comma. -/
theorem parseTokens_cases :
    parseTokens (some "token1, token2, token3") = ["token1", "token2", "token3"]
    ∧ parseTokens (some "token1,,  ,token2") = ["token1", "token2"]
    ∧ parseTokens none = []
    ∧ parseTokens (some "token1，token2") = ["token1，token2"] := by decide

/-- Claim C10: after each mutating operation (`markTokenExhausted`,
`resetProviderTokens`, `resetAllTokens`) the persisted record's date equals
the current UTC date, whatever the storage held before. -/
theorem mutations_refresh_date (today : String) (cell : StorageCell)
    (provider : TokenProvider) (token : String) :
    storedDate (markTokenExhausted today cell provider token) = some today
    ∧ storedDate (resetProviderTokens today cell provider) = some today
    ∧ storedDate (resetAllTokens today) = some today := by
  refine ⟨?_, ?_, rfl⟩ <;>
    simp [markTokenExhausted, resetProviderTokens, saveTokenStatusStore,
      storedDate, getTokenStatusStore_date]

/-- Claim C4: when the persisted record's date differs from today, every
read-side operation behaves as on an empty exhaustion map (a token marked
exhausted yesterday is available today); when the stored date is today,
exhaustion flags persist unchanged across repeated reads. -/
theorem daily_reset_semantics (s : TokenStatusStore) (today yesterday : String)
    (cell : StorageCell) (provider : TokenProvider) (token : String)
    (tokens : List String) :
    (s.date ≠ today →
      (isTokenExhausted today (.stored s) provider token).1 = false
      ∧ (getNextAvailableToken today (.stored s) provider tokens).1
          = (getNextAvailableToken today
              (.stored { date := today, exhausted := [] }) provider tokens).1
      ∧ (getTokenStats today (.stored s) provider tokens).1
          = (getTokenStats today
              (.stored { date := today, exhausted := [] }) provider tokens).1)
    ∧ (yesterday ≠ today →
      (isTokenExhausted today (markTokenExhausted yesterday cell provider token)
          provider token).1 = false)
    ∧ (isTokenExhausted today (markTokenExhausted today cell provider token)
        provider token).1 = true
    ∧ (isTokenExhausted today (isTokenExhausted today cell provider token).2
        provider token).1
      = (isTokenExhausted today cell provider token).1 := by
  refine ⟨fun hstale => ?_, fun hyt => ?_, ?_, rfl⟩
  · have hs : getTokenStatusStore today (.stored s)
        = { date := today, exhausted := [] } := by
      simp [getTokenStatusStore, hstale]
    refine ⟨?_, ?_, ?_⟩
    · simp [isTokenExhausted, hs, lookupEntry]
    · simp only [getNextAvailableToken, getTokenStatusStore, hstale]
      split <;> simp
    · simp [getTokenStats, getTokenStatusStore, hstale]
  · have hd : storedDate (markTokenExhausted yesterday cell provider token)
        = some yesterday := by
      simp [markTokenExhausted, saveTokenStatusStore, storedDate,
        getTokenStatusStore_date]
    cases hm : markTokenExhausted yesterday cell provider token with
    | absent => simp [hm, storedDate] at hd
    | malformed => simp [hm, storedDate] at hd
    | stored s' =>
      have hs' : s'.date = yesterday := by
        rw [hm] at hd
        simpa [storedDate] using hd
      simp [isTokenExhausted, getTokenStatusStore, hs', hyt, lookupEntry]
  · have hread := store_after_mark today cell provider token
    simp [isTokenExhausted, hread, lookupEntry_setEntry_self]

/-- Claim C4 witness: a token flagged under yesterday's date reads available
today on all three read paths; marking yesterday then reading today gives
false; marking today then reading today gives true. -/
theorem daily_reset_semantics_witness :
    ((isTokenExhausted "2026-10-12"
        (.stored { date := "2026-10-11", exhausted := [("gitee", [("t1", true)])] })
        .gitee "t1").1 = false
      ∧ (getNextAvailableToken "2026-10-12"
          (.stored { date := "2026-10-11", exhausted := [("gitee", [("t1", true)])] })
          .gitee ["t1"]).1
        = (getNextAvailableToken "2026-10-12"
            (.stored { date := "2026-10-12", exhausted := [] }) .gitee ["t1"]).1
      ∧ (getTokenStats "2026-10-12"
          (.stored { date := "2026-10-11", exhausted := [("gitee", [("t1", true)])] })
          .gitee ["t1"]).1
        = (getTokenStats "2026-10-12"
            (.stored { date := "2026-10-12", exhausted := [] }) .gitee ["t1"]).1)
    ∧ (isTokenExhausted "2026-10-12"
        (markTokenExhausted "2026-10-11" .absent .gitee "t1") .gitee "t1").1 = false
    ∧ (isTokenExhausted "2026-10-12"
        (markTokenExhausted "2026-10-12" .absent .gitee "t1") .gitee "t1").1 = true
    ∧ (isTokenExhausted "2026-10-12"
        (isTokenExhausted "2026-10-12" .absent .gitee "t1").2 .gitee "t1").1
      = (isTokenExhausted "2026-10-12" .absent .gitee "t1").1 := by
  have h := daily_reset_semantics
    { date := "2026-10-11", exhausted := [("gitee", [("t1", true)])] }
    "2026-10-12" "2026-10-11" .absent .gitee "t1" ["t1"]
  exact ⟨h.1 (by decide), h.2.1 (by decide), h.2.2.1, h.2.2.2⟩

/-- Claim C5: for distinct providers P and Q, `markTokenExhausted(P, t)`
changes neither `isTokenExhausted(Q, _)` nor `getNextAvailableToken(Q, _)`,
and `resetProviderTokens(P)` clears P's flags while leaving Q's reads
untouched. -/
theorem cross_provider_isolation (today : String) (cell : StorageCell)
    (P Q : TokenProvider) (t t' : String) (tokens : List String) (h : P ≠ Q) :
    (isTokenExhausted today (markTokenExhausted today cell P t) Q t').1
        = (isTokenExhausted today cell Q t').1
    ∧ (getNextAvailableToken today (markTokenExhausted today cell P t) Q tokens).1
        = (getNextAvailableToken today cell Q tokens).1
    ∧ (isTokenExhausted today (resetProviderTokens today cell P) Q t').1
        = (isTokenExhausted today cell Q t').1
    ∧ (getNextAvailableToken today (resetProviderTokens today cell P) Q tokens).1
        = (getNextAvailableToken today cell Q tokens).1
    ∧ (isTokenExhausted today (resetProviderTokens today cell P) P t').1 = false := by
  have hk := providerKey_injective h
  have hmark := store_after_mark today cell P t
  have hreset := store_after_resetProvider today cell P
  refine ⟨?_, ?_, ?_, ?_, ?_⟩
  · simp [isTokenExhausted, hmark, lookupEntry_setEntry_ne _ _ _ _ hk]
  · cases tokens with
    | nil => rfl
    | cons a l =>
      rw [getNextAvailableToken_cons, getNextAvailableToken_cons]
      have : (fun tok => !(isTokenExhausted today
            (markTokenExhausted today cell P t) Q tok).1)
          = fun tok => !(isTokenExhausted today cell Q tok).1 := by
        funext tok
        simp [isTokenExhausted, hmark, lookupEntry_setEntry_ne _ _ _ _ hk]
      rw [this]
  · simp [isTokenExhausted, hreset, lookupEntry_deleteEntry_ne _ _ _ hk]
  · cases tokens with
    | nil => rfl
    | cons a l =>
      rw [getNextAvailableToken_cons, getNextAvailableToken_cons]
      have : (fun tok => !(isTokenExhausted today
            (resetProviderTokens today cell P) Q tok).1)
          = fun tok => !(isTokenExhausted today cell Q tok).1 := by
        funext tok
        simp [isTokenExhausted, hreset, lookupEntry_deleteEntry_ne _ _ _ hk]
      rw [this]
  · simp [isTokenExhausted, hreset, lookupEntry_deleteEntry_self]

/-- Claim C5 witness: gitee versus huggingface with token `"t1"` on a store
where huggingface has `"t1"` flagged. -/
theorem cross_provider_isolation_witness :
    (isTokenExhausted "2026-10-12"
        (markTokenExhausted "2026-10-12"
          (.stored { date := "2026-10-12", exhausted := [("huggingface", [("t1", true)])] })
          .gitee "t1") .huggingface "t1").1
      = (isTokenExhausted "2026-10-12"
          (.stored { date := "2026-10-12", exhausted := [("huggingface", [("t1", true)])] })
          .huggingface "t1").1
    ∧ (getNextAvailableToken "2026-10-12"
        (markTokenExhausted "2026-10-12"
          (.stored { date := "2026-10-12", exhausted := [("huggingface", [("t1", true)])] })
          .gitee "t1") .huggingface ["t1", "t2"]).1
      = (getNextAvailableToken "2026-10-12"
          (.stored { date := "2026-10-12", exhausted := [("huggingface", [("t1", true)])] })
          .huggingface ["t1", "t2"]).1
    ∧ (isTokenExhausted "2026-10-12"
        (resetProviderTokens "2026-10-12"
          (.stored { date := "2026-10-12", exhausted := [("huggingface", [("t1", true)])] })
          .gitee) .huggingface "t1").1
      = (isTokenExhausted "2026-10-12"
          (.stored { date := "2026-10-12", exhausted := [("huggingface", [("t1", true)])] })
          .huggingface "t1").1
    ∧ (getNextAvailableToken "2026-10-12"
        (resetProviderTokens "2026-10-12"
          (.stored { date := "2026-10-12", exhausted := [("huggingface", [("t1", true)])] })
          .gitee) .huggingface ["t1", "t2"]).1
      = (getNextAvailableToken "2026-10-12"
          (.stored { date := "2026-10-12", exhausted := [("huggingface", [("t1", true)])] })
          .huggingface ["t1", "t2"]).1
    ∧ (isTokenExhausted "2026-10-12"
        (resetProviderTokens "2026-10-12"
          (.stored { date := "2026-10-12", exhausted := [("huggingface", [("t1", true)])] })
          .gitee) .gitee "t1").1 = false :=
  cross_provider_isolation "2026-10-12"
    (.stored { date := "2026-10-12", exhausted := [("huggingface", [("t1", true)])] })
    .gitee .huggingface "t1" "t1" ["t1", "t2"] (by decide)

/-- Claim C3: when the first selected token's invocation throws an error not
classified as a quota error, `runWithTokenRotation` returns a non-retryable
failure after that single invocation: exactly one call is made and the
persisted store is unchanged (no token is marked exhausted). -/
theorem non_quota_error_fails_fast {T : Type} (today : String) (cell : StorageCell)
    (provider : TokenProvider) (allTokens : List String)
    (op : Nat → Option String → OpResult T) (allowAnonymous : Bool)
    (t : String) (e : JSError)
    (h0 : allTokens ≠ [])
    (h1 : (getNextAvailableToken today cell provider allTokens).1 = some t)
    (h2 : op 0 (some t) = .thrown e)
    (h3 : isQuotaError e = false) :
    runWithTokenRotation today cell provider allTokens op allowAnonymous
      = (.failure (errMessage e) false, cell, 1) := by
  have hlen : (allTokens.length == 0) = false := by
    cases allTokens with
    | nil => exact absurd rfl h0
    | cons a l => rfl
  unfold runWithTokenRotation
  rw [hlen]
  rw [show MAX_RETRY_ATTEMPTS = 9 + 1 from rfl]
  simp only [rotationLoop, h1, h2, h3]
  rfl

/-- Claim C3 witness: a single token, an operation that always throws a 500,
anonymous access off — one invocation, unchanged store. -/
theorem non_quota_error_fails_fast_witness :
    runWithTokenRotation "2026-10-12" .absent .gitee ["t1"]
        (fun _ _ => (OpResult.thrown (JSError.obj (some 500) none none none) :
          OpResult Unit)) false
      = (.failure "Unknown error" false, .absent, 1) :=
  non_quota_error_fails_fast "2026-10-12" .absent .gitee ["t1"]
    (fun _ _ => OpResult.thrown (JSError.obj (some 500) none none none)) false
    "t1" (JSError.obj (some 500) none none none)
    (by decide) (by decide) rfl (by decide)
